import Mathlib

/-!
Shallow embedding of the news-feed system (`src/index.ts`).

JavaScript `Map`s are modelled as functions with decidable-equality string
keys; a `Set<string>` is modelled as a duplicate-free insertion-ordered list
(`setAdd` appends only when absent, matching `Set.add`).  Nondeterministic
inputs of the source (`Date.now()`, the `Math.random()` suffix) are passed in
as explicit parameters.  `likePost` in the source mutates the shared `Post`
object before re-inserting it with `setPost`; the by-value embedding performs
the same updates through `setPost`, which writes the primary table always and
the hot cache exactly when the source would observe `likeCount > 100`.
-/

namespace NewsFeed

structure User where
  id : String
  username : String
  profilePicture : String
deriving DecidableEq

structure Post where
  id : String
  userId : String
  content : String
  imageUrl : Option String
  videoUrl : Option String
  timestamp : Nat
  likeCount : Nat
  replyCount : Nat
deriving DecidableEq

structure NewsFeedItem where
  postId : String
  timestamp : Nat
deriving DecidableEq

structure FanoutMessage where
  postId : String
  userId : String
  friendIds : List String
deriving DecidableEq

structure Counter where
  likes : Nat
  replies : Nat
deriving DecidableEq

/-- JS `Set<string>.add`: insertion-ordered, no duplicates, no-op if present. -/
def setAdd (l : List String) (x : String) : List String :=
  if x ∈ l then l else l ++ [x]

/-- The `CacheLayer` class state: each private `Map` becomes a lookup function. -/
structure CacheLayer where
  newsFeeds : String → List NewsFeedItem
  posts : String → Option Post
  users : String → Option User
  hotCache : String → Option Post
  socialGraph : String → List String
  actions : String → String → Option Bool
  counters : String → Option Counter

def emptyCache : CacheLayer :=
  ⟨fun _ => [], fun _ => none, fun _ => none, fun _ => none,
   fun _ => [], fun _ _ => none, fun _ => none⟩

def getNewsFeed (c : CacheLayer) (userId : String) : List NewsFeedItem :=
  c.newsFeeds userId

/-- Source `addToNewsFeed`: unshift, then `splice(1000)` when length exceeds 1000. -/
def addToNewsFeed (c : CacheLayer) (userId : String) (item : NewsFeedItem) :
    CacheLayer :=
  let feed := item :: c.newsFeeds userId
  let feed := if feed.length > 1000 then feed.take 1000 else feed
  { c with newsFeeds := fun u => if u = userId then feed else c.newsFeeds u }

/-- Source `getPost`: `this.hotCache.get(postId) || this.posts.get(postId)`. -/
def getPost (c : CacheLayer) (postId : String) : Option Post :=
  match c.hotCache postId with
  | some p => some p
  | none => c.posts postId

/-- Source `setPost`: write primary table; promote into hot cache when `likeCount > 100`. -/
def setPost (c : CacheLayer) (post : Post) : CacheLayer :=
  let c' := { c with posts := fun k => if k = post.id then some post else c.posts k }
  if post.likeCount > 100 then
    { c' with hotCache := fun k => if k = post.id then some post else c'.hotCache k }
  else c'

def getUser (c : CacheLayer) (userId : String) : Option User :=
  c.users userId

def setUser (c : CacheLayer) (u : User) : CacheLayer :=
  { c with users := fun k => if k = u.id then some u else c.users k }

def getFollowers (c : CacheLayer) (userId : String) : List String :=
  c.socialGraph ("followers_" ++ userId)

def getFollowing (c : CacheLayer) (userId : String) : List String :=
  c.socialGraph ("following_" ++ userId)

/-- Source `addFollower(userId, followerId)`: add to `followers_userId` and to
`following_followerId`, creating empty sets on demand. -/
def addFollower (c : CacheLayer) (userId followerId : String) : CacheLayer :=
  let key1 := "followers_" ++ userId
  let g1 : String → List String :=
    fun k => if k = key1 then setAdd (c.socialGraph key1) followerId
             else c.socialGraph k
  let key2 := "following_" ++ followerId
  let g2 : String → List String :=
    fun k => if k = key2 then setAdd (g1 key2) userId else g1 k
  { c with socialGraph := g2 }

/-- Source `likePost`: record the action, increment the counter unconditionally,
then refresh the cached post (if any) with the new counter value. -/
def likePost (c : CacheLayer) (userId postId : String) : CacheLayer :=
  let c1 := { c with actions := fun u p =>
    (if u = userId then (if p = postId then some true else c.actions u p)
     else c.actions u p) }
  let counter := (c1.counters postId).getD ⟨0, 0⟩
  let counter := { counter with likes := counter.likes + 1 }
  let c2 := { c1 with counters := fun p =>
    (if p = postId then some counter else c1.counters p) }
  match getPost c2 postId with
  | some post => setPost c2 { post with likeCount := counter.likes }
  | none => c2

def hasLiked (c : CacheLayer) (userId postId : String) : Bool :=
  (c.actions userId postId).getD false

def getCounters (c : CacheLayer) (postId : String) : Counter :=
  (c.counters postId).getD ⟨0, 0⟩

/-- Source `PostService.createPost`: id is `` `post_${Date.now()}_${random}` ``;
`now` and the random suffix are explicit parameters. -/
def createPost (c : CacheLayer) (userId content : String)
    (imageUrl videoUrl : Option String) (now : Nat) (rand : String) :
    Post × CacheLayer :=
  let post : Post :=
    { id := "post_" ++ toString now ++ "_" ++ rand,
      userId := userId,
      content := content,
      imageUrl := imageUrl,
      videoUrl := videoUrl,
      timestamp := now,
      likeCount := 0,
      replyCount := 0 }
  (post, setPost c post)

structure AuthorSummary where
  username : String
  profilePicture : String
deriving DecidableEq

/-- A hydrated feed item: the spread `...post` plus author summary, live
counter values and the viewer's liked flag. -/
structure HydratedItem where
  id : String
  userId : String
  content : String
  imageUrl : Option String
  videoUrl : Option String
  timestamp : Nat
  likeCount : Nat
  replyCount : Nat
  author : Option AuthorSummary
  liked : Bool
deriving DecidableEq

/-- The loop body of `NewsFeedService.getNewsFeed` for one feed entry. -/
def hydrate (c : CacheLayer) (viewerId : String) (item : NewsFeedItem) :
    Option HydratedItem :=
  match getPost c item.postId with
  | none => none
  | some post =>
    let author := (getUser c post.userId).map fun a =>
      AuthorSummary.mk a.username a.profilePicture
    let counters := getCounters c post.id
    let liked := hasLiked c viewerId post.id
    some { id := post.id, userId := post.userId, content := post.content,
           imageUrl := post.imageUrl, videoUrl := post.videoUrl,
           timestamp := post.timestamp,
           likeCount := counters.likes, replyCount := counters.replies,
           author := author, liked := liked }

/-- Source `NewsFeedService.getNewsFeed`: slice to `limit`, hydrate, drop unresolved. -/
def getNewsFeedService (c : CacheLayer) (userId : String) (limit : Nat) :
    List HydratedItem :=
  ((getNewsFeed c userId).take limit).filterMap (hydrate c userId)

/-- State of `MessageQueue` + `FanoutWorker` state: the backlog, the busy flag of each
worker, and the shared cache the workers write into. -/
structure MQState where
  queue : List FanoutMessage
  workers : List Bool
  cache : CacheLayer

def mkMQ (workerCount : Nat) : MQState :=
  ⟨[], List.replicate workerCount false, emptyCache⟩

/-- Source `FanoutWorker.process` up to its first `await`: set busy, append a feed
entry (timestamped `now`) to every friend's feed. -/
def workerProcess (s : MQState) (i : Nat) (msg : FanoutMessage) (now : Nat) :
    MQState :=
  let item : NewsFeedItem := ⟨msg.postId, now⟩
  { s with workers := s.workers.set i true,
           cache := msg.friendIds.foldl (fun c f => addToNewsFeed c f item) s.cache }

/-- Source `MessageQueue.processQueue`: if the backlog is nonempty and some worker is
idle, pop the head job and hand it to the first idle worker. -/
def processQueue (s : MQState) (now : Nat) : MQState :=
  match s.queue with
  | [] => s
  | msg :: rest =>
    match s.workers.findIdx? (fun b => !b) with
    | some i => workerProcess { s with queue := rest } i msg now
    | none => s

/-- Source `MessageQueue.enqueue`: push to the backlog, then attempt dispatch. -/
def enqueue (s : MQState) (msg : FanoutMessage) (now : Nat) : MQState :=
  processQueue { s with queue := s.queue ++ [msg] } now

/-- The tail of `FanoutWorker.process`, after the simulated processing delay:
`this.busy = false` — and nothing else; in particular `processQueue` is NOT
invoked on completion. -/
def completeWorker (s : MQState) (i : Nat) : MQState :=
  { s with workers := s.workers.set i false }

/-- One core mutating operation, for stating reachable-state invariants. -/
inductive Op where
  | create (userId content : String) (imageUrl videoUrl : Option String)
      (now : Nat) (rand : String)
  | like (userId postId : String)
  | follow (targetId followerId : String)
  | putUser (u : User)
  | appendFeed (userId : String) (item : NewsFeedItem)

def step (c : CacheLayer) : Op → CacheLayer
  | .create u ct img vid now rand => (createPost c u ct img vid now rand).2
  | .like u p => likePost c u p
  | .follow t f => addFollower c t f
  | .putUser u => setUser c u
  | .appendFeed u item => addToNewsFeed c u item

def run (c : CacheLayer) (ops : List Op) : CacheLayer :=
  ops.foldl step c

/-- Spec-side restatement of the hydration contract: like/reply counts come
from the live counters table keyed by the feed entry's postId, and the liked
flag is the viewer's `hasLiked` on that postId. -/
def hydrateSpec (c : CacheLayer) (viewerId : String) (item : NewsFeedItem) :
    Option HydratedItem :=
  match getPost c item.postId with
  | none => none
  | some post =>
    some { id := post.id, userId := post.userId, content := post.content,
           imageUrl := post.imageUrl, videoUrl := post.videoUrl,
           timestamp := post.timestamp,
           likeCount := (getCounters c item.postId).likes,
           replyCount := (getCounters c item.postId).replies,
           author := (getUser c post.userId).map fun a =>
             AuthorSummary.mk a.username a.profilePicture,
           liked := hasLiked c viewerId item.postId }

/-- Well-formedness of the post tables: a stored post's id field matches the
key it is stored under (maintained by `setPost`, which keys by `post.id`). -/
def postIdsConsistent (c : CacheLayer) : Prop :=
  ∀ pid post, getPost c pid = some post → post.id = pid

/-- Bidirectional consistency of the follow graph. -/
def graphInv (c : CacheLayer) : Prop :=
  ∀ A B : String, A ∈ getFollowers c B ↔ B ∈ getFollowing c A

/-- The hot cache holds only posts that are also in the primary table. -/
def hotSub (c : CacheLayer) : Prop :=
  ∀ pid, (c.hotCache pid).isSome = true → (c.posts pid).isSome = true

/-- A post created at millisecond 5 with random suffix `r`, followed by 101
likes from 101 distinct users: the hot-cache promotion scenario. -/
def ops101 : List Op :=
  Op.create "u" "hello" none none 5 "r" ::
    (List.range 101).map fun i => Op.like ("u" ++ toString i) "post_5_r"

/-- Two concrete fanout jobs for the dispatch scenario. -/
def mqJobA : FanoutMessage := ⟨"p1", "a", ["f"]⟩

def mqJobB : FanoutMessage := ⟨"p2", "a", ["f"]⟩

/-- A cache whose every feed is exactly at capacity, for the capacity witness. -/
def fullFeedCache : CacheLayer :=
  { emptyCache with newsFeeds := fun _ => List.replicate 1000 ⟨"p", 0⟩ }

/-- A hand-built well-formed cache: one post `p1`, a feed pointing at `p1` and
at a missing post, for the hydration witness. -/
def postW : Post := ⟨"p1", "u1", "hello", none, none, 5, 0, 0⟩

def cacheW : CacheLayer :=
  { emptyCache with
      posts := fun k => if k = "p1" then some postW else none,
      newsFeeds := fun _ => [⟨"p1", 9⟩, ⟨"missing", 8⟩] }

/-- Operation list for the reply-count witness: a user, a post, one fanout
append into viewer `v`'s feed. -/
def opsW : List Op :=
  [Op.putUser ⟨"u1", "alice", "pic"⟩,
   Op.create "u1" "hello" none none 5 "r",
   Op.appendFeed "v" ⟨"post_5_r", 9⟩]

/-- The hydrated item the read path produces for `opsW`. -/
def itemW : HydratedItem :=
  ⟨"post_5_r", "u1", "hello", none, none, 5, 0, 0, some ⟨"alice", "pic"⟩, false⟩

/-- The post as it stands after the `ops101` scenario: 101 likes recorded. -/
def post101 : Post := ⟨"post_5_r", "u", "hello", none, none, 5, 101, 0⟩

lemma str_append_right_inj (p s t : String) : p ++ s = p ++ t ↔ s = t := by
  constructor
  · intro h
    have h2 : (p ++ s).data = (p ++ t).data := by rw [h]
    simp only [String.data_append] at h2
    exact String.ext (List.append_cancel_left h2)
  · intro h; rw [h]

lemma followers_following_ne (x y : String) :
    ("followers_" ++ x : String) ≠ "following_" ++ y := by
  intro h
  have h2 : ("followers_" ++ x).data = ("following_" ++ y).data := by rw [h]
  simp only [String.data_append] at h2
  simp [String.data] at h2

lemma mem_setAdd {l : List String} {x y : String} :
    y ∈ setAdd l x ↔ y ∈ l ∨ y = x := by
  unfold setAdd
  split
  · next hx =>
      constructor
      · exact Or.inl
      · rintro (hy | rfl)
        · exact hy
        · exact hx
  · simp [List.mem_append]

lemma mem_setAdd_self (l : List String) (x : String) : x ∈ setAdd l x :=
  mem_setAdd.mpr (Or.inr rfl)

lemma setPost_newsFeeds (c : CacheLayer) (p : Post) :
    (setPost c p).newsFeeds = c.newsFeeds := by
  unfold setPost; split <;> rfl

lemma setPost_users (c : CacheLayer) (p : Post) :
    (setPost c p).users = c.users := by
  unfold setPost; split <;> rfl

lemma setPost_socialGraph (c : CacheLayer) (p : Post) :
    (setPost c p).socialGraph = c.socialGraph := by
  unfold setPost; split <;> rfl

lemma setPost_actions (c : CacheLayer) (p : Post) :
    (setPost c p).actions = c.actions := by
  unfold setPost; split <;> rfl

lemma setPost_counters (c : CacheLayer) (p : Post) :
    (setPost c p).counters = c.counters := by
  unfold setPost; split <;> rfl

lemma createPost_snd (c : CacheLayer) (u ct : String) (img vid : Option String)
    (now : Nat) (rand : String) :
    (createPost c u ct img vid now rand).2 =
      setPost c (createPost c u ct img vid now rand).1 := rfl

lemma likePost_newsFeeds (c : CacheLayer) (u p : String) :
    (likePost c u p).newsFeeds = c.newsFeeds := by
  unfold likePost
  simp only []
  split <;> simp [setPost_newsFeeds]

lemma likePost_users (c : CacheLayer) (u p : String) :
    (likePost c u p).users = c.users := by
  unfold likePost
  simp only []
  split <;> simp [setPost_users]

lemma likePost_socialGraph (c : CacheLayer) (u p : String) :
    (likePost c u p).socialGraph = c.socialGraph := by
  unfold likePost
  simp only []
  split <;> simp [setPost_socialGraph]

lemma getCounters_likePost (c : CacheLayer) (u p : String) :
    getCounters (likePost c u p) p =
      ⟨(getCounters c p).likes + 1, (getCounters c p).replies⟩ := by
  unfold likePost getCounters
  simp only []
  split <;> simp [setPost_counters]

lemma getCounters_likePost_other (c : CacheLayer) (u p q : String) (h : q ≠ p) :
    getCounters (likePost c u p) q = getCounters c q := by
  unfold likePost getCounters
  simp only []
  split <;> simp [setPost_counters, h]

lemma addToNewsFeed_newsFeeds_self (c : CacheLayer) (u : String) (item : NewsFeedItem) :
    (addToNewsFeed c u item).newsFeeds u =
      if (item :: c.newsFeeds u).length > 1000
      then (item :: c.newsFeeds u).take 1000
      else item :: c.newsFeeds u := by
  unfold addToNewsFeed
  exact if_pos rfl

lemma addToNewsFeed_newsFeeds_other (c : CacheLayer) (u v : String)
    (item : NewsFeedItem) (h : v ≠ u) :
    (addToNewsFeed c u item).newsFeeds v = c.newsFeeds v := by
  unfold addToNewsFeed
  exact if_neg h

lemma addToNewsFeed_length_le (c : CacheLayer) (u0 : String) (item : NewsFeedItem)
    (h : ∀ u, (c.newsFeeds u).length ≤ 1000) :
    ∀ u, ((addToNewsFeed c u0 item).newsFeeds u).length ≤ 1000 := by
  intro u
  by_cases hu : u = u0
  · subst hu
    rw [addToNewsFeed_newsFeeds_self]
    by_cases hlen : (item :: c.newsFeeds u).length > 1000
    · rw [if_pos hlen]
      exact List.length_take_le 1000 _
    · rw [if_neg hlen]
      exact Nat.le_of_not_lt hlen
  · rw [addToNewsFeed_newsFeeds_other c u0 u item hu]
    exact h u

lemma feedInv_step (c : CacheLayer) (op : Op)
    (h : ∀ u, (c.newsFeeds u).length ≤ 1000) :
    ∀ u, ((step c op).newsFeeds u).length ≤ 1000 := by
  cases op with
  | create u ct img vid now rand =>
      intro v
      simp only [step, createPost_snd, setPost_newsFeeds]
      exact h v
  | like u p =>
      intro v
      simp only [step, likePost_newsFeeds]
      exact h v
  | follow t f => exact h
  | putUser u => exact h
  | appendFeed u item => exact addToNewsFeed_length_le c u item h

lemma run_feedInv : ∀ (ops : List Op) (c : CacheLayer),
    (∀ u, (c.newsFeeds u).length ≤ 1000) →
    ∀ u, ((run c ops).newsFeeds u).length ≤ 1000
  | [], _, h => h
  | op :: ops, c, h => run_feedInv ops (step c op) (feedInv_step c op h)

theorem feed_length_le_cap (ops : List Op) (u : String) :
    ((run emptyCache ops).newsFeeds u).length ≤ 1000 :=
  run_feedInv ops emptyCache (fun _ => by simp [emptyCache]) u

theorem addToNewsFeed_capacity_spec (c : CacheLayer) (u : String)
    (item : NewsFeedItem) :
    ((c.newsFeeds u).length = 1000 →
      (addToNewsFeed c u item).newsFeeds u = item :: (c.newsFeeds u).dropLast) ∧
    ((c.newsFeeds u).length < 1000 →
      (addToNewsFeed c u item).newsFeeds u = item :: c.newsFeeds u) := by
  constructor
  · intro h1000
    rw [addToNewsFeed_newsFeeds_self,
        if_pos (by simp only [List.length_cons, gt_iff_lt, h1000]; omega)]
    have hne : c.newsFeeds u ≠ [] := by
      intro he
      rw [he] at h1000
      simp at h1000
    have htake : (item :: c.newsFeeds u).take 1000 =
        (item :: c.newsFeeds u).dropLast := by
      rw [List.dropLast_eq_take]
      simp only [List.length_cons, h1000, Nat.add_sub_cancel]
    rw [htake, List.dropLast_cons_of_ne_nil hne]
  · intro hlt
    rw [addToNewsFeed_newsFeeds_self,
        if_neg (by simp only [List.length_cons, gt_iff_lt, not_lt]; omega)]

theorem addToNewsFeed_capacity_spec_witness :
    ((fullFeedCache.newsFeeds "u").length = 1000 ∧
      (addToNewsFeed fullFeedCache "u" ⟨"q", 1⟩).newsFeeds "u" =
        ⟨"q", 1⟩ :: (fullFeedCache.newsFeeds "u").dropLast) ∧
    ((emptyCache.newsFeeds "u").length < 1000 ∧
      (addToNewsFeed emptyCache "u" ⟨"q", 1⟩).newsFeeds "u" =
        ⟨"q", 1⟩ :: emptyCache.newsFeeds "u") :=
  ⟨⟨by rw [show fullFeedCache.newsFeeds "u" = List.replicate 1000 ⟨"p", 0⟩ from rfl,
        List.length_replicate],
    (addToNewsFeed_capacity_spec fullFeedCache "u" ⟨"q", 1⟩).1
      (by rw [show fullFeedCache.newsFeeds "u" = List.replicate 1000 ⟨"p", 0⟩ from rfl,
          List.length_replicate])⟩,
   ⟨by norm_num [emptyCache],
    (addToNewsFeed_capacity_spec emptyCache "u" ⟨"q", 1⟩).2
      (by norm_num [emptyCache])⟩⟩


lemma addFollower_followers_self (c : CacheLayer) (t f : String) :
    getFollowers (addFollower c t f) t = setAdd (getFollowers c t) f := by
  unfold addFollower getFollowers
  simp [followers_following_ne t f]

lemma addFollower_following_self (c : CacheLayer) (t f : String) :
    getFollowing (addFollower c t f) f = setAdd (getFollowing c f) t := by
  unfold addFollower getFollowing
  simp [Ne.symm (followers_following_ne t f)]

lemma addFollower_followers_other (c : CacheLayer) (t f B : String) (h : B ≠ t) :
    getFollowers (addFollower c t f) B = getFollowers c B := by
  unfold addFollower getFollowers
  simp [followers_following_ne B f, str_append_right_inj, h]

lemma addFollower_following_other (c : CacheLayer) (t f A : String) (h : A ≠ f) :
    getFollowing (addFollower c t f) A = getFollowing c A := by
  unfold addFollower getFollowing
  simp [Ne.symm (followers_following_ne t A), str_append_right_inj, h]

lemma graphInv_addFollower (c : CacheLayer) (t f : String) (h : graphInv c) :
    graphInv (addFollower c t f) := by
  intro A B
  by_cases hB : B = t
  · subst hB
    by_cases hA : A = f
    · subst hA
      rw [addFollower_followers_self, addFollower_following_self]
      constructor
      · intro _; exact mem_setAdd_self _ _
      · intro _; exact mem_setAdd_self _ _
    · rw [addFollower_followers_self, addFollower_following_other c B f A hA]
      rw [mem_setAdd]
      constructor
      · rintro (hm | rfl)
        · exact (h A B).mp hm
        · exact absurd rfl hA
      · intro hm; exact Or.inl ((h A B).mpr hm)
  · by_cases hA : A = f
    · subst hA
      rw [addFollower_followers_other c t A B hB, addFollower_following_self]
      rw [mem_setAdd]
      constructor
      · intro hm; exact Or.inl ((h A B).mp hm)
      · rintro (hm | rfl)
        · exact (h A B).mpr hm
        · exact absurd rfl hB
    · rw [addFollower_followers_other c t f B hB,
          addFollower_following_other c t f A hA]
      exact h A B

lemma graphInv_step (c : CacheLayer) (op : Op) (h : graphInv c) :
    graphInv (step c op) := by
  cases op with
  | create u ct img vid now rand =>
      intro A B
      unfold getFollowers getFollowing
      simp only [step, createPost_snd, setPost_socialGraph]
      exact h A B
  | like u p =>
      intro A B
      unfold getFollowers getFollowing
      simp only [step, likePost_socialGraph]
      exact h A B
  | follow t f => exact graphInv_addFollower c t f h
  | putUser u => exact h
  | appendFeed u item => exact h

lemma run_graphInv : ∀ (ops : List Op) (c : CacheLayer), graphInv c →
    graphInv (run c ops)
  | [], _, h => h
  | op :: ops, c, h => run_graphInv ops (step c op) (graphInv_step c op h)

/-- C6: `addFollower(B, A)` makes A a follower of B and B a followee of A;
and from the empty store, after any operation sequence the followers-of and
following-of indexes are consistent inverses. -/
theorem follow_bidirectional :
    (∀ (c : CacheLayer) (A B : String),
        A ∈ getFollowers (addFollower c B A) B ∧
        B ∈ getFollowing (addFollower c B A) A) ∧
    (∀ (ops : List Op) (A B : String),
        A ∈ getFollowers (run emptyCache ops) B ↔
        B ∈ getFollowing (run emptyCache ops) A) := by
  constructor
  · intro c A B
    rw [addFollower_followers_self, addFollower_following_self]
    exact ⟨mem_setAdd_self _ _, mem_setAdd_self _ _⟩
  · intro ops A B
    exact run_graphInv ops emptyCache
      (fun _ _ => by simp [getFollowers, getFollowing, emptyCache]) A B


lemma likePost_unfold (c : CacheLayer) (u p : String) :
    likePost c u p =
      (match getPost c p with
       | some post =>
         setPost
           { c with
             actions := fun u1 p1 =>
               (if u1 = u then (if p1 = p then some true else c.actions u1 p1)
                else c.actions u1 p1),
             counters := fun p1 =>
               (if p1 = p then
                  some ⟨(getCounters c p).likes + 1, (getCounters c p).replies⟩
                else c.counters p1) }
           { post with likeCount := (getCounters c p).likes + 1 }
       | none =>
         { c with
           actions := fun u1 p1 =>
             (if u1 = u then (if p1 = p then some true else c.actions u1 p1)
              else c.actions u1 p1),
           counters := fun p1 =>
             (if p1 = p then
                some ⟨(getCounters c p).likes + 1, (getCounters c p).replies⟩
              else c.counters p1) }) := rfl

/-- C1: the code is NOT idempotent — two likes by the same user on the same
post raise the like counter by 2, not 1; concretely, from the empty store two
likes yield a counter of 2, and a created post's denormalized likeCount shows
2 after two likes by one user. -/
theorem likePost_double_counts :
    (∀ (c : CacheLayer) (u p : String),
      (getCounters (likePost (likePost c u p) u p) p).likes =
        (getCounters c p).likes + 2) ∧
    (getCounters (likePost (likePost emptyCache "u1" "p1") "u1" "p1") "p1").likes
      = 2 ∧
    ((getPost (likePost (likePost
        (createPost emptyCache "u" "x" none none 5 "r").2 "a" "post_5_r")
        "a" "post_5_r") "post_5_r").map (fun q => q.likeCount)) = some 2 := by
  refine ⟨?_, by decide, by decide⟩
  intro c u p
  rw [getCounters_likePost, getCounters_likePost]

/-- C2: the code dispatches only on enqueue, never on worker completion —
with a single worker, job B stays in the backlog after the worker finishes
job A and goes idle, instead of being popped and assigned. -/
theorem completion_no_dispatch :
    (enqueue (mkMQ 1) mqJobA 10).workers = [true] ∧
    (enqueue (enqueue (mkMQ 1) mqJobA 10) mqJobB 20).queue = [mqJobB] ∧
    (completeWorker (enqueue (enqueue (mkMQ 1) mqJobA 10) mqJobB 20) 0).workers
      = [false] ∧
    (completeWorker (enqueue (enqueue (mkMQ 1) mqJobA 10) mqJobB 20) 0).queue
      = [mqJobB] := by
  refine ⟨by decide, by decide, by decide, by decide⟩

/-- C3 counterexample: liking a nonexistent post is not rejected and mutates
the store — the counters table changes from 0 to 1 likes. -/
theorem like_nonexistent_mutates_cex :
    getPost emptyCache "p1" = none ∧
    (getCounters emptyCache "p1").likes = 0 ∧
    (getCounters (likePost emptyCache "u1" "p1") "p1").likes = 1 := by
  refine ⟨rfl, rfl, by decide⟩

/-- C3 amended: no validation happens; a like on a nonexistent post still
records the like and increments the counters table, and only the post tables
and feeds are left untouched. -/
theorem like_missing_post_spec (c : CacheLayer) (u p : String)
    (h : getPost c p = none) :
    (getCounters (likePost c u p) p).likes = (getCounters c p).likes + 1 ∧
    hasLiked (likePost c u p) u p = true ∧
    (likePost c u p).posts = c.posts ∧
    (likePost c u p).hotCache = c.hotCache ∧
    (likePost c u p).newsFeeds = c.newsFeeds := by
  rw [likePost_unfold, h]
  refine ⟨by simp [getCounters], by simp [hasLiked], rfl, rfl, rfl⟩

/-- Witness for C3's amended statement at the empty store. -/
theorem like_missing_post_spec_witness :
    getPost emptyCache "p1" = none ∧
    ((getCounters (likePost emptyCache "u1" "p1") "p1").likes =
        (getCounters emptyCache "p1").likes + 1 ∧
      hasLiked (likePost emptyCache "u1" "p1") "u1" "p1" = true ∧
      (likePost emptyCache "u1" "p1").posts = emptyCache.posts ∧
      (likePost emptyCache "u1" "p1").hotCache = emptyCache.hotCache ∧
      (likePost emptyCache "u1" "p1").newsFeeds = emptyCache.newsFeeds) :=
  ⟨rfl, like_missing_post_spec emptyCache "u1" "p1" rfl⟩


/-- C8 counterexample: two posts created by different authors in the same
millisecond with the same random suffix receive the same id — the scheme is
not collision-free. -/
theorem createPost_id_collision_cex :
    (createPost emptyCache "a" "x" none none 5 "r").1.id =
      (createPost emptyCache "b" "y" none none 5 "r").1.id ∧
    ("a" : String) ≠ "b" := ⟨rfl, by decide⟩

/-- C8 amended: a created post always has zero like and reply counts and
timestamp equal to the creation time; two ids generated in the same
millisecond are equal exactly when the random suffixes are equal, so
uniqueness holds only when the suffixes (or the milliseconds) differ. -/
theorem createPost_spec (c1 c2 : CacheLayer) (u1 ct1 u2 ct2 : String)
    (i1 v1 i2 v2 : Option String) (now1 now2 : Nat) (r1 r2 : String) :
    (createPost c1 u1 ct1 i1 v1 now1 r1).1.likeCount = 0 ∧
    (createPost c1 u1 ct1 i1 v1 now1 r1).1.replyCount = 0 ∧
    (createPost c1 u1 ct1 i1 v1 now1 r1).1.timestamp = now1 ∧
    (now1 = now2 →
      ((createPost c1 u1 ct1 i1 v1 now1 r1).1.id =
          (createPost c2 u2 ct2 i2 v2 now2 r2).1.id ↔ r1 = r2)) := by
  refine ⟨rfl, rfl, rfl, ?_⟩
  intro hnow
  subst hnow
  exact str_append_right_inj ("post_" ++ toString now1 ++ "_") r1 r2

/-- Witness for C8's amended statement in a concrete same-millisecond case. -/
theorem createPost_spec_witness :
    (createPost emptyCache "u1" "c1" none none 5 "a").1.likeCount = 0 ∧
    (createPost emptyCache "u1" "c1" none none 5 "a").1.replyCount = 0 ∧
    (createPost emptyCache "u1" "c1" none none 5 "a").1.timestamp = 5 ∧
    ((createPost emptyCache "u1" "c1" none none 5 "a").1.id =
        (createPost emptyCache "u2" "c2" none none 5 "b").1.id ↔
      ("a" : String) = "b") :=
  ⟨(createPost_spec emptyCache emptyCache "u1" "c1" "u2" "c2"
      none none none none 5 5 "a" "b").1,
   (createPost_spec emptyCache emptyCache "u1" "c1" "u2" "c2"
      none none none none 5 5 "a" "b").2.1,
   (createPost_spec emptyCache emptyCache "u1" "c1" "u2" "c2"
      none none none none 5 5 "a" "b").2.2.1,
   (createPost_spec emptyCache emptyCache "u1" "c1" "u2" "c2"
      none none none none 5 5 "a" "b").2.2.2 rfl⟩


lemma hydrate_none (c : CacheLayer) (v : String) (item : NewsFeedItem)
    (h : getPost c item.postId = none) : hydrate c v item = none := by
  unfold hydrate
  rw [h]

lemma hydrate_some (c : CacheLayer) (v : String) (item : NewsFeedItem)
    (post : Post) (h : getPost c item.postId = some post) :
    hydrate c v item = some
      ⟨post.id, post.userId, post.content, post.imageUrl, post.videoUrl,
       post.timestamp, (getCounters c post.id).likes,
       (getCounters c post.id).replies,
       (getUser c post.userId).map fun a =>
         AuthorSummary.mk a.username a.profilePicture,
       hasLiked c v post.id⟩ := by
  unfold hydrate
  rw [h]

lemma hydrate_eq_spec (c : CacheLayer) (v : String) (hw : postIdsConsistent c)
    (item : NewsFeedItem) : hydrate c v item = hydrateSpec c v item := by
  unfold hydrate hydrateSpec
  cases hgp : getPost c item.postId with
  | none => simp only [hgp]
  | some post =>
      simp only [hgp]
      rw [hw _ _ hgp]

lemma filterMap_hydrate_ids (c : CacheLayer) (v : String)
    (hw : postIdsConsistent c) :
    ∀ l : List NewsFeedItem,
      ((l.filterMap (hydrate c v)).map fun it => it.id) =
        ((l.filter fun it => (getPost c it.postId).isSome).map
          fun it => it.postId)
  | [] => rfl
  | item :: l => by
      simp only [List.filterMap_cons, List.filter_cons]
      cases hgp : getPost c item.postId with
      | none =>
          simp [hydrate_none c v item hgp, hgp, filterMap_hydrate_ids c v hw l]
      | some post =>
          rw [hydrate_some c v item post hgp]
          simp [hgp, filterMap_hydrate_ids c v hw l, hw _ _ hgp]

/-- C7: under the invariant that stored posts carry the key they are stored
under, the read path returns at most `limit` items, equals the spec-side
hydration (live counters and viewer liked flag keyed by the entry's postId),
and keeps exactly the resolvable entries in their original order. -/
theorem getNewsFeed_hydration_spec (c : CacheLayer) (u : String) (limit : Nat)
    (hw : postIdsConsistent c) :
    (getNewsFeedService c u limit).length ≤ limit ∧
    getNewsFeedService c u limit =
      ((getNewsFeed c u).take limit).filterMap (hydrateSpec c u) ∧
    ((getNewsFeedService c u limit).map fun it => it.id) =
      (((getNewsFeed c u).take limit).filter
          fun it => (getPost c it.postId).isSome).map fun it => it.postId := by
  refine ⟨?_, ?_, ?_⟩
  · exact le_trans (List.length_filterMap_le _ _) (List.length_take_le _ _)
  · exact List.filterMap_congr fun x _ => hydrate_eq_spec c u hw x
  · exact filterMap_hydrate_ids c u hw _

/-- Witness for C7 on a concrete two-entry feed with one missing post. -/
theorem getNewsFeed_hydration_spec_witness :
    postIdsConsistent cacheW ∧
    ((getNewsFeedService cacheW "v" 20).length ≤ 20 ∧
      getNewsFeedService cacheW "v" 20 =
        ((getNewsFeed cacheW "v").take 20).filterMap (hydrateSpec cacheW "v") ∧
      ((getNewsFeedService cacheW "v" 20).map fun it => it.id) =
        (((getNewsFeed cacheW "v").take 20).filter
            fun it => (getPost cacheW it.postId).isSome).map
          fun it => it.postId) := by
  have hw : postIdsConsistent cacheW := by
    intro pid post h
    by_cases hp : pid = "p1"
    · subst hp
      simp [getPost, cacheW, emptyCache, postW] at h
      rw [← h]
    · simp [getPost, cacheW, emptyCache, hp] at h
  exact ⟨hw, getNewsFeed_hydration_spec cacheW "v" 20 hw⟩


lemma hotSub_setPost (c : CacheLayer) (p : Post) (h : hotSub c) :
    hotSub (setPost c p) := by
  intro pid
  unfold setPost
  simp only []
  by_cases hl : p.likeCount > 100
  · rw [if_pos hl]
    by_cases hk : pid = p.id
    · simp [hk]
    · simp only [hk, if_false, if_neg hk]
      exact h pid
  · rw [if_neg hl]
    by_cases hk : pid = p.id
    · simp [hk]
    · simp only [hk, if_false, if_neg hk]
      exact h pid

lemma hotSub_likePost (c : CacheLayer) (u p : String) (h : hotSub c) :
    hotSub (likePost c u p) := by
  rw [likePost_unfold]
  cases hgp : getPost c p with
  | some post => exact hotSub_setPost _ _ h
  | none => exact h

lemma hotSub_step (c : CacheLayer) (op : Op) (h : hotSub c) :
    hotSub (step c op) := by
  cases op with
  | create u ct img vid now rand =>
      simp only [step, createPost_snd]
      exact hotSub_setPost _ _ h
  | like u p => exact hotSub_likePost c u p h
  | follow t f => exact h
  | putUser u => exact h
  | appendFeed u item => exact h

lemma run_hotSub : ∀ (ops : List Op) (c : CacheLayer), hotSub c →
    hotSub (run c ops)
  | [], _, h => h
  | op :: ops, c, h => run_hotSub ops (step c op) (hotSub_step c op h)

set_option maxRecDepth 10000 in
/-- C9: `getPost` prefers the hot cache over the primary table; from the
empty store the hot cache only ever holds keys present in the primary table;
and after a post gathers 101 likes it sits in the hot cache with field values
identical to the primary-table copy. -/
theorem getPost_hot_spec :
    (∀ (c : CacheLayer) (pid : String) (p : Post),
        c.hotCache pid = some p → getPost c pid = some p) ∧
    (∀ (c : CacheLayer) (pid : String),
        c.hotCache pid = none → getPost c pid = c.posts pid) ∧
    (∀ (ops : List Op) (pid : String),
        ((run emptyCache ops).hotCache pid).isSome = true →
        ((run emptyCache ops).posts pid).isSome = true) ∧
    ((run emptyCache ops101).hotCache "post_5_r" = some post101 ∧
      (run emptyCache ops101).hotCache "post_5_r" =
        (run emptyCache ops101).posts "post_5_r") := by
  refine ⟨?_, ?_, ?_, by decide, by decide⟩
  · intro c pid p h
    unfold getPost
    rw [h]
  · intro c pid h
    unfold getPost
    rw [h]
  · intro ops pid
    exact run_hotSub ops emptyCache
      (fun pid' hh => by simp [emptyCache] at hh) pid

set_option maxRecDepth 10000 in
/-- Witness for C9: each implication of `getPost_hot_spec` applied at a
concrete state. -/
theorem getPost_hot_spec_witness :
    getPost (run emptyCache ops101) "post_5_r" = some post101 ∧
    getPost cacheW "p1" = cacheW.posts "p1" ∧
    ((run emptyCache ops101).posts "post_5_r").isSome = true :=
  ⟨getPost_hot_spec.1 (run emptyCache ops101) "post_5_r" post101 (by decide),
   getPost_hot_spec.2.1 cacheW "p1" (by decide),
   getPost_hot_spec.2.2.1 ops101 "post_5_r" (by decide)⟩


lemma getCounters_setPost (c : CacheLayer) (p : Post) (pid : String) :
    getCounters (setPost c p) pid = getCounters c pid := by
  unfold getCounters
  rw [setPost_counters]

lemma replies_step (c : CacheLayer) (op : Op)
    (h : ∀ pid, (getCounters c pid).replies = 0) :
    ∀ pid, (getCounters (step c op) pid).replies = 0 := by
  cases op with
  | create u ct img vid now rand =>
      intro pid
      simp only [step, createPost_snd, getCounters_setPost]
      exact h pid
  | like u p =>
      intro pid
      by_cases hp : pid = p
      · subst hp
        rw [step, getCounters_likePost]
        exact h pid
      · rw [step, getCounters_likePost_other c u p pid hp]
        exact h pid
  | follow t f => exact h
  | putUser u => exact h
  | appendFeed u item => exact h

lemma run_replies : ∀ (ops : List Op) (c : CacheLayer),
    (∀ pid, (getCounters c pid).replies = 0) →
    ∀ pid, (getCounters (run c ops) pid).replies = 0
  | [], _, h => h
  | op :: ops, c, h => run_replies ops (step c op) (replies_step c op h)

/-- C10: no operation ever touches reply counts — from the empty store, after
any operation sequence every counter's replies field is 0 and every hydrated
feed item reports replyCount 0. -/
theorem replies_always_zero :
    (∀ (ops : List Op) (pid : String),
        (getCounters (run emptyCache ops) pid).replies = 0) ∧
    (∀ (ops : List Op) (u : String) (limit : Nat) (it : HydratedItem),
        it ∈ getNewsFeedService (run emptyCache ops) u limit →
        it.replyCount = 0) := by
  have h1 : ∀ (ops : List Op) (pid : String),
      (getCounters (run emptyCache ops) pid).replies = 0 :=
    fun ops pid => run_replies ops emptyCache (fun _ => rfl) pid
  refine ⟨h1, ?_⟩
  intro ops u limit it hmem
  unfold getNewsFeedService at hmem
  rcases List.mem_filterMap.mp hmem with ⟨entry, _, hhyd⟩
  cases hgp : getPost (run emptyCache ops) entry.postId with
  | none =>
      rw [hydrate_none _ _ _ hgp] at hhyd
      exact absurd hhyd (by simp)
  | some post =>
      rw [hydrate_some _ _ _ _ hgp] at hhyd
      rw [← Option.some.inj hhyd]
      exact h1 ops post.id

/-- Witness for C10: the concrete feed produced by `opsW` and its single
hydrated item. -/
theorem replies_always_zero_witness :
    (getCounters (run emptyCache opsW) "post_5_r").replies = 0 ∧
    itemW ∈ getNewsFeedService (run emptyCache opsW) "v" 20 ∧
    itemW.replyCount = 0 :=
  ⟨replies_always_zero.1 opsW "post_5_r",
   by decide,
   replies_always_zero.2 opsW "v" 20 itemW (by decide)⟩

end NewsFeed
